import Mathlib

/-!
Shallow embedding of the VenomBot blob renderer (src/app.py, src/blob_renderer.py).

Colors are RGBA quadruples of integers as in Qt's QColor (default alpha 255).
Geometry is modelled over the real numbers; Python's float math functions
(sqrt, sin, cos) become their Mathlib counterparts.  A Python exception
(ZeroDivisionError) raised inside a computation is modelled by Option: the
computation returns none exactly when the source would raise.
-/

/-- RGBA color, as Qt's QColor: four integer channels.  Qt's default alpha
is 255. -/
structure QColor where
  r : ℤ
  g : ℤ
  b : ℤ
  a : ℤ
  deriving DecidableEq

/-- BlobRenderer.get_state_color (src/blob_renderer.py lines 86-99): the
state string to base color lookup, with an else-fallback to the idle color. -/
def getStateColor (state : String) : QColor :=
  if state = "idle" then ⟨10, 10, 15, 255⟩
  else if state = "listening" then ⟨0, 200, 255, 255⟩
  else if state = "thinking" then ⟨255, 150, 0, 255⟩
  else if state = "success" then ⟨0, 255, 100, 255⟩
  else if state = "error" then ⟨255, 50, 50, 255⟩
  else ⟨10, 10, 15, 255⟩

/-- BlobRenderer.create_color_variations (src/blob_renderer.py lines 101-123):
the four derived variants (highlight, mid-light, mid-dark, shadow); each copies
the base color and re-sets the three RGB channels, clamped; alpha is kept. -/
def createColorVariations (c : QColor) : QColor × QColor × QColor × QColor :=
  (⟨min 255 (c.r + 80), min 255 (c.g + 80), min 255 (c.b + 80), c.a⟩,
   ⟨min 255 (c.r + 40), min 255 (c.g + 40), min 255 (c.b + 40), c.a⟩,
   ⟨max 0 (c.r - 40), max 0 (c.g - 40), max 0 (c.b - 40), c.a⟩,
   ⟨max 0 (c.r - 60), max 0 (c.g - 60), max 0 (c.b - 60), c.a⟩)

/-- The animation variables of ActiveWindow that animate_blob touches
(src/app.py lines 29-43): current state string, the state timer, the
jump/wobble magnitudes and the three noise time accumulators. -/
structure AnimVars where
  st : String
  stateTimer : ℕ
  jumpHeight : ℝ
  wobbleOffset : ℝ
  time1 : ℝ
  time2 : ℝ
  time3 : ℝ

/-- ActiveWindow.animate_blob (src/app.py lines 56-81): advance the three
time accumulators by their speeds; in the success state compute the jump
height from the current timer, increment the timer, and revert to idle with
timer 0 once the timer exceeds 50; analogously for error with bound 40. -/
noncomputable def animateBlob (v : AnimVars) : AnimVars :=
  let v1 := { v with time1 := v.time1 + 0.05, time2 := v.time2 + 0.03,
                     time3 := v.time3 + 0.08 }
  if v1.st = "success" then
    let v2 := { v1 with jumpHeight := Real.sin (v1.stateTimer * 0.3) * 10,
                        stateTimer := v1.stateTimer + 1 }
    if v2.stateTimer > 50 then { v2 with st := "idle", stateTimer := 0 } else v2
  else if v1.st = "error" then
    let v2 := { v1 with wobbleOffset := Real.sin (v1.stateTimer * 0.5) * 5,
                        stateTimer := v1.stateTimer + 1 }
    if v2.stateTimer > 40 then { v2 with st := "idle", stateTimer := 0 } else v2
  else v1

theorem animateBlob_success_step (v : AnimVars) (hs : v.st = "success")
    (hle : v.stateTimer + 1 ≤ 50) :
    (animateBlob v).st = "success" ∧ (animateBlob v).stateTimer = v.stateTimer + 1 := by
  have hgt : ¬ v.stateTimer + 1 > 50 := by omega
  simp [animateBlob, hs, hgt]

theorem animateBlob_error_step (v : AnimVars) (hs : v.st = "error")
    (hle : v.stateTimer + 1 ≤ 40) :
    (animateBlob v).st = "error" ∧ (animateBlob v).stateTimer = v.stateTimer + 1 := by
  have hgt : ¬ v.stateTimer + 1 > 40 := by omega
  simp [animateBlob, hs, hgt]

theorem animateBlob_iterate_success (k : ℕ) : ∀ v : AnimVars, v.st = "success" →
    v.stateTimer + k ≤ 50 →
    (animateBlob^[k] v).st = "success" ∧ (animateBlob^[k] v).stateTimer = v.stateTimer + k := by
  induction k with
  | zero => intro v hs _; simpa using hs
  | succ n ih =>
    intro v hs hle
    have hstep := animateBlob_success_step v hs (by omega)
    have := ih (animateBlob v) hstep.1 (by omega)
    rw [Function.iterate_succ_apply]
    constructor
    · exact this.1
    · rw [this.2, hstep.2]; omega

theorem animateBlob_iterate_error (k : ℕ) : ∀ v : AnimVars, v.st = "error" →
    v.stateTimer + k ≤ 40 →
    (animateBlob^[k] v).st = "error" ∧ (animateBlob^[k] v).stateTimer = v.stateTimer + k := by
  induction k with
  | zero => intro v hs _; simpa using hs
  | succ n ih =>
    intro v hs hle
    have hstep := animateBlob_error_step v hs (by omega)
    have := ih (animateBlob v) hstep.1 (by omega)
    rw [Function.iterate_succ_apply]
    constructor
    · exact this.1
    · rw [this.2, hstep.2]; omega

theorem animateBlob_success_reset (v : AnimVars) (hs : v.st = "success")
    (ht : v.stateTimer = 50) :
    (animateBlob v).st = "idle" ∧ (animateBlob v).stateTimer = 0 := by
  simp [animateBlob, hs, ht]

theorem animateBlob_error_reset (v : AnimVars) (hs : v.st = "error")
    (ht : v.stateTimer = 40) :
    (animateBlob v).st = "idle" ∧ (animateBlob v).stateTimer = 0 := by
  simp [animateBlob, hs, ht]

/-- Claim C1 counterexample: starting a fresh success request (state timer
0, other animation variables zero), after 50 ticks of animate_blob the state
is still success, not idle; so the claimed exact boundary at tick 50 fails. -/
theorem success_not_idle_at_tick_50 :
    (animateBlob^[50] ⟨"success", 0, 0, 0, 0, 0, 0⟩).st = "success" ∧
    ¬ ((animateBlob^[50] ⟨"success", 0, 0, 0, 0, 0, 0⟩).st = "idle" ∧
       (animateBlob^[50] ⟨"success", 0, 0, 0, 0, 0, 0⟩).stateTimer = 0) := by
  have h := animateBlob_iterate_success 50 ⟨"success", 0, 0, 0, 0, 0, 0⟩ rfl (by simp)
  refine ⟨h.1, ?_⟩
  intro hc
  rw [h.1] at hc
  exact absurd hc.1 (by decide)

/-- Claim C1 (amended): from a fresh success request (state timer 0) the
state is still success after 50 ticks and is idle with timer 0 after 51
ticks; from a fresh error request it is still error after 40 ticks and idle
with timer 0 after 41 ticks, for any values of the other animation variables. -/
theorem state_revert_tick_boundaries (j w t1 t2 t3 : ℝ) :
    (animateBlob^[50] ⟨"success", 0, j, w, t1, t2, t3⟩).st = "success" ∧
    (animateBlob^[51] ⟨"success", 0, j, w, t1, t2, t3⟩).st = "idle" ∧
    (animateBlob^[51] ⟨"success", 0, j, w, t1, t2, t3⟩).stateTimer = 0 ∧
    (animateBlob^[40] ⟨"error", 0, j, w, t1, t2, t3⟩).st = "error" ∧
    (animateBlob^[41] ⟨"error", 0, j, w, t1, t2, t3⟩).st = "idle" ∧
    (animateBlob^[41] ⟨"error", 0, j, w, t1, t2, t3⟩).stateTimer = 0 := by
  have hs := animateBlob_iterate_success 50 ⟨"success", 0, j, w, t1, t2, t3⟩ rfl (by simp)
  have he := animateBlob_iterate_error 40 ⟨"error", 0, j, w, t1, t2, t3⟩ rfl (by simp)
  have hs2 : (animateBlob^[50] ⟨"success", 0, j, w, t1, t2, t3⟩).stateTimer = 50 := by
    rw [hs.2]
  have he2 : (animateBlob^[40] ⟨"error", 0, j, w, t1, t2, t3⟩).stateTimer = 40 := by
    rw [he.2]
  have hs51 := animateBlob_success_reset _ hs.1 hs2
  have he41 := animateBlob_error_reset _ he.1 he2
  have e51 : animateBlob^[51] ⟨"success", 0, j, w, t1, t2, t3⟩ =
      animateBlob (animateBlob^[50] ⟨"success", 0, j, w, t1, t2, t3⟩) := by
    rw [show (51 : ℕ) = 50 + 1 from rfl, Function.iterate_succ_apply']
  have e41 : animateBlob^[41] ⟨"error", 0, j, w, t1, t2, t3⟩ =
      animateBlob (animateBlob^[40] ⟨"error", 0, j, w, t1, t2, t3⟩) := by
    rw [show (41 : ℕ) = 40 + 1 from rfl, Function.iterate_succ_apply']
  exact ⟨hs.1, by rw [e51]; exact hs51.1, by rw [e51]; exact hs51.2,
         he.1, by rw [e41]; exact he41.1, by rw [e41]; exact he41.2⟩

/-- Claim C6: every derived color variant is the per-channel clamped offset
of the base color (+80, +40, -40, -60, alpha kept), and the highlight
variant of the listening base color (0,200,255) is exactly (80,255,255). -/
theorem color_variation_channels (c : QColor) :
    createColorVariations c =
      (⟨min 255 (c.r + 80), min 255 (c.g + 80), min 255 (c.b + 80), c.a⟩,
       ⟨min 255 (c.r + 40), min 255 (c.g + 40), min 255 (c.b + 40), c.a⟩,
       ⟨max 0 (c.r - 40), max 0 (c.g - 40), max 0 (c.b - 40), c.a⟩,
       ⟨max 0 (c.r - 60), max 0 (c.g - 60), max 0 (c.b - 60), c.a⟩) ∧
    (createColorVariations (getStateColor "listening")).1 = ⟨80, 255, 255, 255⟩ :=
  ⟨rfl, by decide⟩

/-- Claim C7: the state color lookup returns the five documented colors and
falls back to the idle color (10,10,15) on every unrecognized state string. -/
theorem state_color_lookup_total :
    getStateColor "idle" = ⟨10, 10, 15, 255⟩ ∧
    getStateColor "listening" = ⟨0, 200, 255, 255⟩ ∧
    getStateColor "thinking" = ⟨255, 150, 0, 255⟩ ∧
    getStateColor "success" = ⟨0, 255, 100, 255⟩ ∧
    getStateColor "error" = ⟨255, 50, 50, 255⟩ ∧
    ∀ s : String,
      s ∉ (["idle", "listening", "thinking", "success", "error"] : List String) →
      getStateColor s = ⟨10, 10, 15, 255⟩ := by
  refine ⟨by decide, by decide, by decide, by decide, by decide, ?_⟩
  intro s hs
  simp only [List.mem_cons, List.not_mem_nil, or_false, not_or] at hs
  obtain ⟨h1, h2, h3, h4, h5⟩ := hs
  simp [getStateColor, h1, h2, h3, h4, h5]

/-- Claim C7 witness: the unrecognized state string "venom" is not one of
the five known states and maps to the idle color. -/
theorem state_color_lookup_total_witness :
    "venom" ∉ (["idle", "listening", "thinking", "success", "error"] : List String) ∧
    getStateColor "venom" = ⟨10, 10, 15, 255⟩ :=
  ⟨by decide, state_color_lookup_total.2.2.2.2.2 "venom" (by decide)⟩

/-- A 2D point with real coordinates, as Qt's QPointF. -/
@[ext]
structure Pt where
  x : ℝ
  y : ℝ

/-- Python's max over a nonempty sequence (max of an empty sequence raises;
the render path never reaches it with an empty list, so the [] case is an
arbitrary total completion). -/
def listMax : List ℝ → ℝ
  | [] => 0
  | a :: as => as.foldl max a

/-- The x coordinate of the contour centroid, render_blob line 209:
sum of the x coordinates divided by the number of points. -/
noncomputable def centroidX (ps : List Pt) : ℝ := (ps.map Pt.x).sum / ps.length

/-- The y coordinate of the contour centroid, render_blob line 210. -/
noncomputable def centroidY (ps : List Pt) : ℝ := (ps.map Pt.y).sum / ps.length

/-- Euclidean distance from a point to a given center, as computed in
render_blob line 212. -/
noncomputable def distTo (cx cy : ℝ) (p : Pt) : ℝ :=
  Real.sqrt ((p.x - cx) ^ 2 + (p.y - cy) ^ 2)

/-- render_blob line 212: the largest distance from the centroid to any
contour point. -/
noncomputable def maxDistance (ps : List Pt) : ℝ :=
  listMax (ps.map (distTo (centroidX ps) (centroidY ps)))

/-- render_blob line 204: horizontal head-tilt factor from the normalized
face position. -/
noncomputable def tiltX (facePos : ℝ × ℝ) : ℝ := (facePos.1 - 0.5) * 0.5

/-- render_blob line 205: vertical head-tilt factor from the normalized
face position. -/
noncomputable def tiltY (facePos : ℝ × ℝ) : ℝ := (facePos.2 - 0.5) * 0.4

/-- render_blob lines 215-222: the lean-biased contour points actually
painted as the main contour.  Each point is shifted by
tilt_x·40·(dy/maxDistance) horizontally and tilt_y·40·(dx/maxDistance)
vertically.  The division by maxDistance is unguarded in the source; when
maxDistance = 0 Python raises ZeroDivisionError, modelled here as none. -/
noncomputable def biasedPoints (ps : List Pt) (facePos : ℝ × ℝ) : Option (List Pt) :=
  if maxDistance ps = 0 then none
  else some (ps.map fun p =>
    ⟨p.x + tiltX facePos * 40 * ((p.y - centroidY ps) / maxDistance ps),
     p.y + tiltY facePos * 40 * ((p.x - centroidX ps) / maxDistance ps)⟩)

/-- render_blob lines 251-253: the shadow contour, built by translating
every point of the input contour (the points argument, before the lean
bias) by the shadow offset (4, 4). -/
noncomputable def shadowPoints (ps : List Pt) : List Pt :=
  ps.map fun p => ⟨p.x + 4, p.y + 4⟩

/-- Translation by the shadow offset (4, 4), used to state the claims about
the shadow contour. -/
noncomputable def shiftByShadowOffset (p : Pt) : Pt := ⟨p.x + 4, p.y + 4⟩

theorem biasedPoints_center_face (ps : List Pt) (h : 0 < maxDistance ps) :
    biasedPoints ps (0.5, 0.5) = some ps := by
  rw [biasedPoints, if_neg (by exact ne_of_gt h)]
  have hmap : (ps.map fun p =>
      (⟨p.x + tiltX (0.5, 0.5) * 40 * ((p.y - centroidY ps) / maxDistance ps),
        p.y + tiltY (0.5, 0.5) * 40 * ((p.x - centroidX ps) / maxDistance ps)⟩ : Pt)) = ps := by
    have : ∀ p : Pt,
        (⟨p.x + tiltX (0.5, 0.5) * 40 * ((p.y - centroidY ps) / maxDistance ps),
          p.y + tiltY (0.5, 0.5) * 40 * ((p.x - centroidX ps) / maxDistance ps)⟩ : Pt) = p := by
      intro p
      ext <;> simp [tiltX, tiltY]
    simp only [this, List.map_id']
  rw [hmap]

/-- The two-point contour [(0,0), (2,0)] used as concrete input: centroid
(1,0), both points at distance 1 from it. -/
noncomputable def pairContour : List Pt := [⟨0, 0⟩, ⟨2, 0⟩]

theorem centroidX_pair : centroidX pairContour = 1 := by
  norm_num [centroidX, pairContour]

theorem centroidY_pair : centroidY pairContour = 0 := by
  simp [centroidY, pairContour]

theorem maxDistance_pair : maxDistance pairContour = 1 := by
  rw [maxDistance, centroidX_pair, centroidY_pair]
  have h1 : distTo 1 0 (⟨0, 0⟩ : Pt) = 1 := by
    rw [distTo]
    norm_num
  have h2 : distTo 1 0 (⟨2, 0⟩ : Pt) = 1 := by
    rw [distTo]
    norm_num
  simp [pairContour, listMax, h1, h2]

/-- A degenerate contour whose three points all coincide at the blob center
(200, 150), so every point is at distance 0 from the centroid. -/
noncomputable def coincidentContour : List Pt := [⟨200, 150⟩, ⟨200, 150⟩, ⟨200, 150⟩]

theorem centroidX_coincident : centroidX coincidentContour = 200 := by
  norm_num [centroidX, coincidentContour]

theorem centroidY_coincident : centroidY coincidentContour = 150 := by
  norm_num [centroidY, coincidentContour]

theorem maxDistance_coincident : maxDistance coincidentContour = 0 := by
  rw [maxDistance, centroidX_coincident, centroidY_coincident]
  have hd : distTo 200 150 (⟨200, 150⟩ : Pt) = 0 := by
    have harg : ((⟨200, 150⟩ : Pt).x - 200) ^ 2 + ((⟨200, 150⟩ : Pt).y - 150) ^ 2 = 0 := by
      norm_num
    rw [distTo, harg, Real.sqrt_zero]
  simp [coincidentContour, listMax, hd]

/-- Claim C4: when all contour points coincide with the centroid
(maxDistance = 0), render_blob has no guard: it evaluates dy/max_distance
anyway, so the Python source raises ZeroDivisionError (modelled as none) and
the frame aborts instead of skipping the lean term. -/
theorem coincident_contour_division_by_zero :
    maxDistance coincidentContour = 0 ∧
    biasedPoints coincidentContour (0.5, 0.5) = none :=
  ⟨maxDistance_coincident, by rw [biasedPoints, if_pos maxDistance_coincident]⟩

/-- Claim C10: with the default face position (0.5, 0.5) both tilt factors
are zero and the lean-bias stage is the identity: every painted main-contour
point equals the corresponding input point, whenever maxDistance > 0. -/
theorem centered_face_lean_identity :
    tiltX (0.5, 0.5) = 0 ∧ tiltY (0.5, 0.5) = 0 ∧
    ∀ ps : List Pt, 0 < maxDistance ps → biasedPoints ps (0.5, 0.5) = some ps :=
  ⟨by norm_num [tiltX], by norm_num [tiltY],
   fun ps h => biasedPoints_center_face ps h⟩

/-- Claim C10 witness: the concrete contour [(0,0), (2,0)] has maxDistance
1 > 0 and is returned unchanged by the lean-bias stage at the default face
position. -/
theorem centered_face_lean_identity_witness :
    0 < maxDistance pairContour ∧
    biasedPoints pairContour (0.5, 0.5) = some pairContour :=
  ⟨by rw [maxDistance_pair]; norm_num,
   centered_face_lean_identity.2.2 pairContour (by rw [maxDistance_pair]; norm_num)⟩

/-- Claim C3 counterexample: for the contour [(0,0), (2,0)] and face
position (1,1), the painted main contour (the lean-biased points) is
[(0,-8), (2,8)], and the painted shadow contour is not that contour
translated by (4,4): the shadow is built from the input points instead. -/
theorem shadow_not_biased_translate_cex :
    biasedPoints pairContour (1, 1) = some [⟨0, -8⟩, ⟨2, 8⟩] ∧
    shadowPoints pairContour ≠ List.map shiftByShadowOffset [(⟨0, -8⟩ : Pt), ⟨2, 8⟩] := by
  constructor
  · rw [biasedPoints, if_neg (by rw [maxDistance_pair]; norm_num)]
    simp only [maxDistance_pair, centroidX_pair, centroidY_pair]
    simp only [pairContour, List.map_cons, List.map_nil, tiltX, tiltY]
    norm_num [Pt.mk.injEq]
  · intro h
    simp only [shadowPoints, shiftByShadowOffset, pairContour, List.map_cons,
      List.map_nil, List.cons.injEq, Pt.mk.injEq] at h
    norm_num at h

/-- Claim C3 (amended): the painted shadow contour is the input contour
(before the lean bias) translated by the shadow offset (4,4), point for
point; it coincides with the painted main contour translated by (4,4) when
the face position is the default (0.5, 0.5) and maxDistance > 0. -/
theorem shadow_contour_from_input_points :
    (∀ ps : List Pt, shadowPoints ps = List.map shiftByShadowOffset ps) ∧
    (∀ ps : List Pt, 0 < maxDistance ps →
      Option.map (List.map shiftByShadowOffset) (biasedPoints ps (0.5, 0.5)) =
        some (shadowPoints ps)) := by
  refine ⟨fun ps => rfl, fun ps h => ?_⟩
  rw [biasedPoints_center_face ps h]
  rfl

/-- Claim C3 witness: for the contour [(0,0), (2,0)] (maxDistance 1 > 0)
at the default face position, translating the painted main contour by (4,4)
gives exactly the painted shadow contour. -/
theorem shadow_contour_from_input_points_witness :
    0 < maxDistance pairContour ∧
    Option.map (List.map shiftByShadowOffset) (biasedPoints pairContour (0.5, 0.5)) =
      some (shadowPoints pairContour) :=
  ⟨by rw [maxDistance_pair]; norm_num,
   shadow_contour_from_input_points.2 pairContour (by rw [maxDistance_pair]; norm_num)⟩

/-- A radial gradient as configured on Qt's QRadialGradient: center, radius,
and the ordered list of color stops added by setColorAt (offsets are the
rational literals from the source). -/
structure RadialGradient where
  center : Pt
  radius : ℝ
  stops : List (ℚ × QColor)

/-- BlobRenderer.create_rim_gradient (src/blob_renderer.py lines 138-146). -/
noncomputable def createRimGradient (center : Pt) (maxD : ℝ) : RadialGradient :=
  ⟨center, maxD * 1.5,
   [(0, ⟨255, 255, 255, 0⟩), (0.7, ⟨255, 255, 255, 0⟩),
    (0.9, ⟨255, 255, 255, 30⟩), (1, ⟨255, 255, 255, 60⟩)]⟩

/-- BlobRenderer.create_specular_gradient (src/blob_renderer.py lines 148-157). -/
noncomputable def createSpecularGradient (center : Pt) (maxD : ℝ) : RadialGradient :=
  ⟨⟨center.x - maxD * 0.4, center.y - maxD * 0.4⟩, maxD * 0.3,
   [(0, ⟨255, 255, 255, 120⟩), (0.3, ⟨255, 255, 255, 60⟩), (1, ⟨255, 255, 255, 0⟩)]⟩

/-- BlobRenderer.create_secondary_gradient (src/blob_renderer.py lines 159-168). -/
noncomputable def createSecondaryGradient (center : Pt) (maxD : ℝ) : RadialGradient :=
  ⟨⟨center.x + maxD * 0.2, center.y - maxD * 0.2⟩, maxD * 0.2,
   [(0, ⟨255, 255, 255, 40⟩), (0.5, ⟨255, 255, 255, 20⟩), (1, ⟨255, 255, 255, 0⟩)]⟩

/-- BlobRenderer.create_ambient_occlusion_gradient (src/blob_renderer.py
lines 170-178). -/
noncomputable def createAmbientOcclusionGradient (center : Pt) (maxD : ℝ) : RadialGradient :=
  ⟨center, maxD * 1.3,
   [(0, ⟨0, 0, 0, 0⟩), (0.6, ⟨0, 0, 0, 0⟩), (0.8, ⟨0, 0, 0, 20⟩), (1, ⟨0, 0, 0, 40⟩)]⟩

/-- BlobRenderer.create_shadow_gradient (src/blob_renderer.py lines 180-190). -/
noncomputable def createShadowGradient (center : Pt) (maxD shadowOffset : ℝ) : RadialGradient :=
  ⟨⟨center.x + shadowOffset, center.y + shadowOffset⟩, maxD * 0.8,
   [(0, ⟨0, 0, 0, 0⟩), (0.3, ⟨0, 0, 0, 60⟩), (0.7, ⟨0, 0, 0, 80⟩), (1, ⟨0, 0, 0, 100⟩)]⟩

/-- The main lighting gradient exactly as built inline in render_blob
(src/blob_renderer.py lines 230-243): center is the centroid shifted by
minus tilt times maxDistance times 2.2, radius is maxDistance times 1.2,
and the five stops use the state base color and its four variants. -/
noncomputable def mainGradient (ps : List Pt) (facePos : ℝ × ℝ) (state : String) :
    RadialGradient :=
  let baseColor := getStateColor state
  let cv := createColorVariations baseColor
  ⟨⟨centroidX ps - tiltX facePos * maxDistance ps * 2.2,
    centroidY ps - tiltY facePos * maxDistance ps * 2.2⟩,
   maxDistance ps * 1.2,
   [(0, cv.1), (0.2, cv.2.1), (0.5, baseColor), (0.8, cv.2.2.1), (1, cv.2.2.2)]⟩

/-- The main-lighting gradient center as the claim words it: centroid offset
by minus (0.3, 0.3) times maxDistance plus a face-tilt bias of (tilt_x,
tilt_y) scaled by 2.2 times maxDistance.  Stated from the claim, for
comparison with the gradient the source builds. -/
noncomputable def claimedMainCenter (ps : List Pt) (facePos : ℝ × ℝ) : Pt :=
  ⟨centroidX ps - 0.3 * maxDistance ps + tiltX facePos * 2.2 * maxDistance ps,
   centroidY ps - 0.3 * maxDistance ps + tiltY facePos * 2.2 * maxDistance ps⟩

theorem getStateColor_alpha (s : String) : (getStateColor s).a = 255 := by
  unfold getStateColor
  split_ifs <;> rfl

/-- Claim C2 counterexample: for the contour [(0,0), (2,0)] (centroid (1,0),
maxDistance 1) at the default face position, the source centers the main
gradient at (1,0), while the claimed formula puts it at (0.7,-0.3); the
minus (0.3,0.3) times maxDistance offset does not exist in render_blob. -/
theorem main_gradient_center_cex :
    (mainGradient pairContour (0.5, 0.5) "idle").center = (⟨1, 0⟩ : Pt) ∧
    claimedMainCenter pairContour (0.5, 0.5) = (⟨0.7, -0.3⟩ : Pt) ∧
    (mainGradient pairContour (0.5, 0.5) "idle").center ≠
      claimedMainCenter pairContour (0.5, 0.5) := by
  have h1 : (mainGradient pairContour (0.5, 0.5) "idle").center = (⟨1, 0⟩ : Pt) := by
    show (⟨centroidX pairContour - tiltX (0.5, 0.5) * maxDistance pairContour * 2.2,
          centroidY pairContour - tiltY (0.5, 0.5) * maxDistance pairContour * 2.2⟩ : Pt) =
        (⟨1, 0⟩ : Pt)
    rw [centroidX_pair, centroidY_pair, maxDistance_pair, Pt.mk.injEq]
    norm_num [tiltX, tiltY]
  have h2 : claimedMainCenter pairContour (0.5, 0.5) = (⟨0.7, -0.3⟩ : Pt) := by
    rw [claimedMainCenter, centroidX_pair, centroidY_pair, maxDistance_pair, Pt.mk.injEq]
    norm_num [tiltX, tiltY]
  refine ⟨h1, h2, ?_⟩
  rw [h1, h2]
  intro h
  rw [Pt.mk.injEq] at h
  norm_num at h

/-- Claim C2 (amended): for every contour, face position and state, the
main lighting gradient is centered at the centroid offset by minus (tilt_x,
tilt_y) scaled by 2.2 times maxDistance, has radius 1.2 times maxDistance,
and has exactly the five stops 0:highlight, 0.2:mid-light, 0.5:base,
0.8:mid-dark, 1:shadow. -/
theorem main_gradient_formula (ps : List Pt) (facePos : ℝ × ℝ) (state : String) :
    (mainGradient ps facePos state).center =
      (⟨centroidX ps - tiltX facePos * 2.2 * maxDistance ps,
        centroidY ps - tiltY facePos * 2.2 * maxDistance ps⟩ : Pt) ∧
    (mainGradient ps facePos state).radius = 1.2 * maxDistance ps ∧
    (mainGradient ps facePos state).stops =
      [(0, (createColorVariations (getStateColor state)).1),
       (0.2, (createColorVariations (getStateColor state)).2.1),
       (0.5, getStateColor state),
       (0.8, (createColorVariations (getStateColor state)).2.2.1),
       (1, (createColorVariations (getStateColor state)).2.2.2)] := by
  refine ⟨?_, ?_, rfl⟩
  · show (⟨centroidX ps - tiltX facePos * maxDistance ps * 2.2,
          centroidY ps - tiltY facePos * maxDistance ps * 2.2⟩ : Pt) = _
    rw [Pt.mk.injEq]
    constructor <;> ring
  · show maxDistance ps * 1.2 = 1.2 * maxDistance ps
    ring

/-- A gradient's stop list is well formed: offsets strictly increasing and
in [0,1], alpha channels in [0,255]. -/
def stopsOK (g : RadialGradient) : Prop :=
  List.Chain' (fun s t => s.1 < t.1) g.stops ∧
  ∀ s ∈ g.stops, 0 ≤ s.1 ∧ s.1 ≤ 1 ∧ 0 ≤ s.2.a ∧ s.2.a ≤ 255

/-- Claim C8: each of the six per-frame gradients (ambient occlusion,
contact shadow, main lighting, rim light, specular, secondary highlight)
has strictly increasing stop offsets within [0,1] and stop alpha channels
within [0,255], for every center, maxDistance, shadow offset, contour, face
position and state. -/
theorem gradient_stops_well_formed (c : Pt) (maxD shOff : ℝ) (ps : List Pt)
    (facePos : ℝ × ℝ) (state : String) :
    stopsOK (createAmbientOcclusionGradient c maxD) ∧
    stopsOK (createShadowGradient c maxD shOff) ∧
    stopsOK (mainGradient ps facePos state) ∧
    stopsOK (createRimGradient c maxD) ∧
    stopsOK (createSpecularGradient c maxD) ∧
    stopsOK (createSecondaryGradient c maxD) := by
  have key : ∀ (g : RadialGradient) (l : List (ℚ × QColor)), g.stops = l →
      List.Chain' (fun s t => s.1 < t.1) l →
      (∀ s ∈ l, 0 ≤ s.1 ∧ s.1 ≤ 1 ∧ 0 ≤ s.2.a ∧ s.2.a ≤ 255) → stopsOK g := by
    intro g l hg h1 h2
    rw [stopsOK, hg]
    exact ⟨h1, h2⟩
  refine ⟨key _ [(0, ⟨0, 0, 0, 0⟩), (0.6, ⟨0, 0, 0, 0⟩), (0.8, ⟨0, 0, 0, 20⟩),
            (1, ⟨0, 0, 0, 40⟩)] rfl (by simp only [List.chain'_cons, List.chain'_singleton, and_true]; norm_num) (by intro s hs; fin_cases hs <;> norm_num),
          key _ [(0, ⟨0, 0, 0, 0⟩), (0.3, ⟨0, 0, 0, 60⟩), (0.7, ⟨0, 0, 0, 80⟩),
            (1, ⟨0, 0, 0, 100⟩)] rfl (by simp only [List.chain'_cons, List.chain'_singleton, and_true]; norm_num) (by intro s hs; fin_cases hs <;> norm_num),
          ?_,
          key _ [(0, ⟨255, 255, 255, 0⟩), (0.7, ⟨255, 255, 255, 0⟩),
            (0.9, ⟨255, 255, 255, 30⟩), (1, ⟨255, 255, 255, 60⟩)] rfl
            (by simp only [List.chain'_cons, List.chain'_singleton, and_true]; norm_num) (by intro s hs; fin_cases hs <;> norm_num),
          key _ [(0, ⟨255, 255, 255, 120⟩), (0.3, ⟨255, 255, 255, 60⟩),
            (1, ⟨255, 255, 255, 0⟩)] rfl (by simp only [List.chain'_cons, List.chain'_singleton, and_true]; norm_num) (by intro s hs; fin_cases hs <;> norm_num),
          key _ [(0, ⟨255, 255, 255, 40⟩), (0.5, ⟨255, 255, 255, 20⟩),
            (1, ⟨255, 255, 255, 0⟩)] rfl (by simp only [List.chain'_cons, List.chain'_singleton, and_true]; norm_num) (by intro s hs; fin_cases hs <;> norm_num)⟩
  have ha : (getStateColor state).a = 255 := getStateColor_alpha state
  have hv1 : (createColorVariations (getStateColor state)).1.a = 255 := ha
  have hv2 : (createColorVariations (getStateColor state)).2.1.a = 255 := ha
  have hv3 : (createColorVariations (getStateColor state)).2.2.1.a = 255 := ha
  have hv4 : (createColorVariations (getStateColor state)).2.2.2.a = 255 := ha
  refine key _ [(0, (createColorVariations (getStateColor state)).1),
     (0.2, (createColorVariations (getStateColor state)).2.1),
     (0.5, getStateColor state),
     (0.8, (createColorVariations (getStateColor state)).2.2.1),
     (1, (createColorVariations (getStateColor state)).2.2.2)] rfl ?_ ?_
  · simp only [List.chain'_cons, List.chain'_singleton, and_true]
    norm_num
  · intro s hs
    have hmem : s = (0, (createColorVariations (getStateColor state)).1) ∨
        s = ((0.2 : ℚ), (createColorVariations (getStateColor state)).2.1) ∨
        s = (0.5, getStateColor state) ∨
        s = ((0.8 : ℚ), (createColorVariations (getStateColor state)).2.2.1) ∨
        s = (1, (createColorVariations (getStateColor state)).2.2.2) := by
      simpa only [List.mem_cons, List.not_mem_nil, or_false] using hs
    rcases hmem with h | h | h | h | h <;> subst h
    · exact ⟨by norm_num, by norm_num, by rw [show ((0 : ℚ),
        (createColorVariations (getStateColor state)).1).2.a =
        (createColorVariations (getStateColor state)).1.a from rfl, hv1]; norm_num,
        by rw [show ((0 : ℚ), (createColorVariations (getStateColor state)).1).2.a =
        (createColorVariations (getStateColor state)).1.a from rfl, hv1]⟩
    · exact ⟨by norm_num, by norm_num, by rw [show ((0.2 : ℚ),
        (createColorVariations (getStateColor state)).2.1).2.a =
        (createColorVariations (getStateColor state)).2.1.a from rfl, hv2]; norm_num,
        by rw [show ((0.2 : ℚ), (createColorVariations (getStateColor state)).2.1).2.a =
        (createColorVariations (getStateColor state)).2.1.a from rfl, hv2]⟩
    · exact ⟨by norm_num, by norm_num, by rw [show ((0.5 : ℚ),
        getStateColor state).2.a = (getStateColor state).a from rfl, ha]; norm_num,
        by rw [show ((0.5 : ℚ), getStateColor state).2.a =
        (getStateColor state).a from rfl, ha]⟩
    · exact ⟨by norm_num, by norm_num, by rw [show ((0.8 : ℚ),
        (createColorVariations (getStateColor state)).2.2.1).2.a =
        (createColorVariations (getStateColor state)).2.2.1.a from rfl, hv3]; norm_num,
        by rw [show ((0.8 : ℚ), (createColorVariations (getStateColor state)).2.2.1).2.a =
        (createColorVariations (getStateColor state)).2.2.1.a from rfl, hv3]⟩
    · exact ⟨by norm_num, by norm_num, by rw [show ((1 : ℚ),
        (createColorVariations (getStateColor state)).2.2.2).2.a =
        (createColorVariations (getStateColor state)).2.2.2.a from rfl, hv4]; norm_num,
        by rw [show ((1 : ℚ), (createColorVariations (getStateColor state)).2.2.2).2.a =
        (createColorVariations (getStateColor state)).2.2.2.a from rfl, hv4]⟩

/-- The x coordinate of the blob center in create_blob_shape (src/app.py
lines 112-120): 200, shifted by the wobble offset in the error state. -/
noncomputable def blobCenterX (state : String) (wobble : ℝ) : ℝ :=
  200 + (if state = "error" then wobble else 0)

/-- The y coordinate of the blob center in create_blob_shape (src/app.py
lines 112-120): 150, raised by the jump height in the success state. -/
noncomputable def blobCenterY (state : String) (jump : ℝ) : ℝ :=
  150 + (if state = "success" then jump else 0)

/-- ActiveWindow.create_blob_shape (src/app.py lines 104-162), with the
point count, base radius and noise function as parameters (the source fixes
num_points = 40, base_radius = 100 and OpenSimplex noise2; the noise values
themselves are not a compatibility requirement).  For each of numPoints
evenly spaced angles, three noise layers at scales 0.9, 0.5, 0.1 are
combined with 0.6, 0.3, 0.1 weights, scaled by 50, and a chaos term
sin(t1*2 + i*0.5)*10 is added to the radius. -/
noncomputable def createBlobShape (numPoints : ℕ) (baseRadius : ℝ)
    (noise : ℝ → ℝ → ℝ) (t1 t2 t3 : ℝ) (state : String) (jump wobble : ℝ) :
    List Pt :=
  (List.range numPoints).map fun (i : ℕ) =>
    let angle : ℝ := (2 * Real.pi * (i : ℝ)) / (numPoints : ℝ)
    let noiseValue1 := noise (Real.cos angle * 0.9 + t1) (Real.sin angle * 0.9 + t1)
    let noiseValue2 := noise (Real.cos angle * 0.5 + t2) (Real.sin angle * 0.5 + t2)
    let noiseValue3 := noise (Real.cos angle * 0.1 + t3) (Real.sin angle * 0.1 + t3)
    let totalNoise := noiseValue1 * 0.6 + noiseValue2 * 0.3 + noiseValue3 * 0.1
    let radius := baseRadius + totalNoise * 50 + Real.sin (t1 * 2 + (i : ℝ) * 0.5) * 10
    ⟨blobCenterX state wobble + Real.cos angle * radius,
     blobCenterY state jump + Real.sin angle * radius⟩

/-- A painter path restricted to what the renderer produces: a subpath
start (moveTo), the remaining vertices (lineTo), and whether closeSubpath
was called (joining the current position back to the subpath start). -/
structure PPath where
  subpathStart : Pt
  vertices : List Pt
  closed : Bool

/-- Path building as in render_blob lines 224-228: moveTo points[0], lineTo
each remaining point, closeSubpath.  Indexing an empty list would raise in
Python, modelled as none. -/
def buildPath : List Pt → Option PPath
  | [] => none
  | p :: rest => some ⟨p, rest, true⟩

/-- Claim C5: for every numPoints at least 3, the generated contour has
exactly numPoints points; point i sits at angle 2*pi*i/numPoints at radius
baseRadius plus the weighted noise sum (0.6 n1 + 0.3 n2 + 0.1 n3) scaled by
the deformation intensity 50 plus the chaos term sin(t1*2 + i*0.5)*10, from
the (state-offset) center; and the derived path is closed with its closing
segment returning to point 0. -/
theorem contour_generation_formula (n : ℕ) (hn : 3 ≤ n) (baseRadius : ℝ)
    (noise : ℝ → ℝ → ℝ) (t1 t2 t3 : ℝ) (state : String) (jump wobble : ℝ) :
    (createBlobShape n baseRadius noise t1 t2 t3 state jump wobble).length = n ∧
    (∀ i : ℕ, i < n →
      (createBlobShape n baseRadius noise t1 t2 t3 state jump wobble)[i]? =
        some ⟨blobCenterX state wobble + Real.cos (2 * Real.pi * (i : ℝ) / (n : ℝ)) *
                (baseRadius +
                 (0.6 * noise (Real.cos (2 * Real.pi * (i : ℝ) / (n : ℝ)) * 0.9 + t1)
                          (Real.sin (2 * Real.pi * (i : ℝ) / (n : ℝ)) * 0.9 + t1) +
                  0.3 * noise (Real.cos (2 * Real.pi * (i : ℝ) / (n : ℝ)) * 0.5 + t2)
                          (Real.sin (2 * Real.pi * (i : ℝ) / (n : ℝ)) * 0.5 + t2) +
                  0.1 * noise (Real.cos (2 * Real.pi * (i : ℝ) / (n : ℝ)) * 0.1 + t3)
                          (Real.sin (2 * Real.pi * (i : ℝ) / (n : ℝ)) * 0.1 + t3)) * 50 +
                 Real.sin (t1 * 2 + (i : ℝ) * 0.5) * 10),
              blobCenterY state jump + Real.sin (2 * Real.pi * (i : ℝ) / (n : ℝ)) *
                (baseRadius +
                 (0.6 * noise (Real.cos (2 * Real.pi * (i : ℝ) / (n : ℝ)) * 0.9 + t1)
                          (Real.sin (2 * Real.pi * (i : ℝ) / (n : ℝ)) * 0.9 + t1) +
                  0.3 * noise (Real.cos (2 * Real.pi * (i : ℝ) / (n : ℝ)) * 0.5 + t2)
                          (Real.sin (2 * Real.pi * (i : ℝ) / (n : ℝ)) * 0.5 + t2) +
                  0.1 * noise (Real.cos (2 * Real.pi * (i : ℝ) / (n : ℝ)) * 0.1 + t3)
                          (Real.sin (2 * Real.pi * (i : ℝ) / (n : ℝ)) * 0.1 + t3)) * 50 +
                 Real.sin (t1 * 2 + (i : ℝ) * 0.5) * 10)⟩) ∧
    (buildPath (createBlobShape n baseRadius noise t1 t2 t3 state jump wobble)).map
      PPath.closed = some true ∧
    (buildPath (createBlobShape n baseRadius noise t1 t2 t3 state jump wobble)).map
      PPath.subpathStart =
      (createBlobShape n baseRadius noise t1 t2 t3 state jump wobble)[0]? := by
  have hlen : (createBlobShape n baseRadius noise t1 t2 t3 state jump wobble).length = n := by
    simp only [createBlobShape, List.length_map, List.length_range]
  have hne : createBlobShape n baseRadius noise t1 t2 t3 state jump wobble ≠ [] := by
    intro h
    rw [h] at hlen
    simp at hlen
    omega
  obtain ⟨a, t, hcons⟩ := List.exists_cons_of_ne_nil hne
  refine ⟨hlen, ?_, ?_, ?_⟩
  · intro i hi
    simp only [createBlobShape, List.getElem?_map]
    rw [List.getElem?_range hi]
    simp only [Option.map_some']
    congr 1
    rw [Pt.mk.injEq]
    constructor <;> ring
  · rw [hcons]
    simp [buildPath]
  · rw [hcons]
    simp [buildPath]

/-- Claim C5 witness: the generation formula instantiated at numPoints 3,
baseRadius 100, the zero noise function, zero times and the idle state. -/
theorem contour_generation_formula_witness :
    (3 ≤ 3) ∧
    ((createBlobShape 3 100 (fun _ _ => 0) 0 0 0 "idle" 0 0).length = 3 ∧
     (∀ i : ℕ, i < 3 →
       (createBlobShape 3 100 (fun _ _ => 0) 0 0 0 "idle" 0 0)[i]? =
         some ⟨blobCenterX "idle" 0 + Real.cos (2 * Real.pi * (i : ℝ) / ((3 : ℕ) : ℝ)) *
                 (100 + (0.6 * 0 + 0.3 * 0 + 0.1 * 0) * 50 +
                  Real.sin (0 * 2 + (i : ℝ) * 0.5) * 10),
               blobCenterY "idle" 0 + Real.sin (2 * Real.pi * (i : ℝ) / ((3 : ℕ) : ℝ)) *
                 (100 + (0.6 * 0 + 0.3 * 0 + 0.1 * 0) * 50 +
                  Real.sin (0 * 2 + (i : ℝ) * 0.5) * 10)⟩) ∧
     (buildPath (createBlobShape 3 100 (fun _ _ => 0) 0 0 0 "idle" 0 0)).map
       PPath.closed = some true ∧
     (buildPath (createBlobShape 3 100 (fun _ _ => 0) 0 0 0 "idle" 0 0)).map
       PPath.subpathStart = (createBlobShape 3 100 (fun _ _ => 0) 0 0 0 "idle" 0 0)[0]?) :=
  ⟨by norm_num,
   contour_generation_formula 3 (by norm_num) 100 (fun _ _ => 0) 0 0 0 "idle" 0 0⟩

/-- A cubic Bezier segment: start point, two control points, end point. -/
structure CubicSeg where
  p0 : Pt
  c1 : Pt
  c2 : Pt
  p1 : Pt

/-- First cubicTo of build_bezier_symbiote_eye (src/blob_renderer.py lines
288-292): the flatter upper lid from the origin to (0.88L, 0). -/
noncomputable def upperLid (length height : ℝ) : CubicSeg :=
  ⟨⟨0, 0⟩, ⟨length * 0.25, -height * 0.45⟩, ⟨length * 0.65, -height * 0.20⟩,
   ⟨length * 0.88, 0⟩⟩

/-- Second cubicTo of build_bezier_symbiote_eye (lines 294-298): the hook
tip from (0.88L, 0) to the tip-return point (0.68L, 0.60H). -/
noncomputable def hookTip (length height : ℝ) : CubicSeg :=
  ⟨⟨length * 0.88, 0⟩, ⟨length * 1.30, height * 0.15⟩, ⟨length * 0.85, height * 0.45⟩,
   ⟨length * 0.68, height * 0.60⟩⟩

/-- Third cubicTo of build_bezier_symbiote_eye (lines 300-305): the lower
lid back to the origin; its first control point is the source's c5 =
2*tip_return - c4, written with tip_return and c4 inlined. -/
noncomputable def lowerLid (length height : ℝ) : CubicSeg :=
  ⟨⟨length * 0.68, height * 0.60⟩,
   ⟨2 * (length * 0.68) - length * 0.85, 2 * (height * 0.60) - height * 0.45⟩,
   ⟨length * 0.25, height * 0.65⟩, ⟨0, 0⟩⟩

/-- BlobRenderer.build_bezier_symbiote_eye (src/blob_renderer.py lines
280-308) as its three cubic segments; the final closeSubpath adds no
segment since the lower lid already returns to the start point (0,0). -/
noncomputable def buildBezierSymbioteEye (length height : ℝ) : List CubicSeg :=
  [upperLid length height, hookTip length height, lowerLid length height]

/-- Claim C9: for every (length, height), the lower lid's first control
point is the point reflection of the hook tip's second control point about
the tip-return point (c5 = 2*tipReturn - c4), so the incoming tangent
direction (tipReturn - c4) and the outgoing tangent direction
(c5 - tipReturn) at the tip-return point are equal, hence collinear (their
cross product is zero): tangent continuity with no kink. -/
theorem eye_tip_reflection_tangent (length height : ℝ) :
    buildBezierSymbioteEye length height =
      [upperLid length height, hookTip length height, lowerLid length height] ∧
    (lowerLid length height).c1.x =
      2 * (hookTip length height).p1.x - (hookTip length height).c2.x ∧
    (lowerLid length height).c1.y =
      2 * (hookTip length height).p1.y - (hookTip length height).c2.y ∧
    (lowerLid length height).c1.x - (lowerLid length height).p0.x =
      (hookTip length height).p1.x - (hookTip length height).c2.x ∧
    (lowerLid length height).c1.y - (lowerLid length height).p0.y =
      (hookTip length height).p1.y - (hookTip length height).c2.y ∧
    ((hookTip length height).p1.x - (hookTip length height).c2.x) *
        ((lowerLid length height).c1.y - (lowerLid length height).p0.y) -
      ((hookTip length height).p1.y - (hookTip length height).c2.y) *
        ((lowerLid length height).c1.x - (lowerLid length height).p0.x) = 0 := by
  refine ⟨rfl, ?_, ?_, ?_, ?_, ?_⟩ <;>
    simp only [upperLid, hookTip, lowerLid] <;> ring
